import Mathlib

/-!
Shallow embedding of `src/perfrecord.cpp` (Hotspot's `PerfRecord` class, a
supervisor for an external `perf record` subprocess).

The C++ class interacts with the OS through Qt facilities (`QFileInfo`,
`QStandardPaths::findExecutable`, `KUser`, `KWindowSystem`, `QProcess`).
Those queries are modelled by an explicit `Env` record of pure functions;
the mutable members of the class (`m_perfRecordProcess`, `m_outputPath`,
`m_userTerminated`) become a state record, and every Qt signal emission
(`recordingFailed`, `recordingFinished`, `recordingStarted`,
`recordingOutput`) together with every subprocess action (`kill`,
`terminate`, `start`, synchronous `execute`) becomes an element of an
emitted `Event` list.  Each member function and each connected lambda of
the C++ file is transcribed as a function `Env → state → args → state × List Event`.
-/

/-- Model of the subset of `QFileInfo` queried by perfrecord.cpp.
`fexists` models `QFileInfo::exists()` (named so because `exists` is a
Lean keyword). -/
structure FileInfo where
  fexists : Bool
  isDir : Bool
  isWritable : Bool
  isFile : Bool
  isExecutable : Bool
  isReadable : Bool
  size : Nat
deriving Repr, DecidableEq

/-- The OS facilities the C++ code consults, as pure functions.
`fileInfo` is the current filesystem metadata; `fileInfoAfterChown` is the
filesystem metadata observed by `QFileInfo::refresh()` after the
synchronous `chown` helper of `ensureFileReadable` has run.
`dirOf p` models `QFileInfo(p).dir().path()`; `findExecutable` models
`QStandardPaths::findExecutable` (empty string when not found);
`absoluteFilePath` models `QFileInfo::absoluteFilePath`; `loginName`
models `KUser().loginName()`; `groupName` models `KUserGroup().name()`;
`activeWindow` models `KWindowSystem::activeWindow()`; `errorString`
models `QProcess::errorString()` inside the `errorOccurred` handler. -/
structure Env where
  fileInfo : String → FileInfo
  fileInfoAfterChown : String → FileInfo
  dirOf : String → String
  findExecutable : String → String
  absoluteFilePath : String → String
  loginName : String
  groupName : String
  activeWindow : Nat
  errorString : String

/-- Model of the `QProcess` member: the data of the handle that the rest of
the class observes (`arguments()` for `perfCommand`, the working directory
set before start).  A freshly constructed `QProcess` has empty arguments. -/
structure QProcessModel where
  arguments : List String
  workingDirectory : String
deriving Repr, DecidableEq

/-- The mutable members of the C++ `PerfRecord` class. -/
structure PerfRecord where
  m_perfRecordProcess : Option QProcessModel
  m_outputPath : String
  m_userTerminated : Bool
deriving Repr, DecidableEq

/-- The `PerfRecord` constructor: null process, empty path, flag cleared. -/
def PerfRecord.init : PerfRecord :=
  { m_perfRecordProcess := none, m_outputPath := "", m_userTerminated := false }

/-- Observable actions of the class: the four Qt signals it emits, plus the
subprocess-handle actions (`kill()` on the previous handle, `terminate()`
from `stopRecording`, asynchronous `start`, synchronous `execute`). -/
inductive Event where
  | recordingFailed (message : String)
  | recordingFinished (fileLocation : String)
  | recordingStarted (program : String) (arguments : List String)
  | recordingOutput (output : String)
  | killPrevious
  | terminateChild
  | spawn (program : String) (arguments : List String)
  | execSync (program : String) (arguments : List String)
deriving Repr, DecidableEq

/-- `SIGTERM` on Linux, as compared against the exit code in the
`finished` handler. -/
def SIGTERM : Int := 15

/-- `QString::endsWith` over the character list (the built-in
`String.endsWith` is defined by well-founded recursion and does not
reduce inside the kernel). -/
def strEndsWith (s suffix : String) : Bool :=
  suffix.data.isSuffixOf s.data

/-- The static helper `sudoOptions(sudoBinary)`: always `-u root`, plus
`-t --attach <active window>` when the binary path ends in `/kdesu`. -/
def sudoOptions (env : Env) (sudoBinary : String) : List String :=
  let options := ["-u", "root"]
  if strEndsWith sudoBinary "/kdesu" then
    options ++ ["-t", "--attach", toString env.activeWindow]
  else
    options

/-- The loop body of `PerfRecord::sudoUtil`: first command of the list
that `findExecutable` resolves, empty string otherwise. -/
def findFirstUtil (env : Env) : List String → String
  | [] => ""
  | cmd :: rest =>
    let util := env.findExecutable cmd
    if util ≠ "" then util else findFirstUtil env rest

/-- `PerfRecord::sudoUtil`: resolve `kdesu`, then `gksu`. -/
def PerfRecord.sudoUtil (env : Env) : String :=
  findFirstUtil env ["kdesu", "gksu"]

/-- `PerfRecord::currentUsername`: `KUser().loginName()`. -/
def PerfRecord.currentUsername (env : Env) : String :=
  env.loginName

/-- `PerfRecord::ensureFileReadable`.  Returns the boolean result together
with the helper processes it ran.  When the file is readable the function
falls through to `refresh(); return isReadable()` without running any
helper; when it is not and either helper or username is missing it
returns false; otherwise it synchronously executes
`<sudo> <sudoOptions> -- chown <user>:<group> <path>` and re-reads the
file info. -/
def PerfRecord.ensureFileReadable (env : Env) (filePath : String) :
    Bool × List Event :=
  let outputFile := env.fileInfo filePath
  let username := PerfRecord.currentUsername env
  if !outputFile.isReadable then
    let sudoExe := PerfRecord.sudoUtil env
    if sudoExe = "" ∨ username = "" then
      (false, [])
    else
      let options := sudoOptions env sudoExe ++
        ["--", "chown", username ++ ":" ++ env.groupName, filePath]
      ((env.fileInfoAfterChown filePath).isReadable,
       [Event.execSync sudoExe options])
  else
    ((env.fileInfo filePath).isReadable, [])

/-- The success condition of the `finished` lambda (perfrecord.cpp lines
106-107): `(exitCode == EXIT_SUCCESS || (exitCode == SIGTERM &&
m_userTerminated) || outputFileInfo.size() > 0) && outputFileInfo.exists()`. -/
def exitSuccessB (env : Env) (s : PerfRecord) (exitCode : Int) : Bool :=
  let outputFileInfo := env.fileInfo s.m_outputPath
  (exitCode == 0 || (exitCode == SIGTERM && s.m_userTerminated)
      || outputFileInfo.size > 0)
    && outputFileInfo.fexists

/-- The lambda connected to `QProcess::finished`: classify the exit, emit
`recordingFinished` / `recordingFailed`, and unconditionally clear
`m_userTerminated`. -/
def PerfRecord.onFinished (env : Env) (s : PerfRecord) (exitCode : Int) :
    PerfRecord × List Event :=
  let events :=
    if exitSuccessB env s exitCode then
      let r := PerfRecord.ensureFileReadable env s.m_outputPath
      if !r.1 then
        r.2 ++ [Event.recordingFailed "Unable to make data file readable."]
      else
        r.2 ++ [Event.recordingFinished s.m_outputPath]
    else
      [Event.recordingFailed
        ("Failed to record perf data, error code " ++ toString exitCode ++ ".")]
  ({ s with m_userTerminated := false }, events)

/-- The lambda connected to `QProcess::errorOccurred`: report the OS error
string unless the user requested termination. -/
def PerfRecord.onErrorOccurred (env : Env) (s : PerfRecord) :
    PerfRecord × List Event :=
  if !s.m_userTerminated then
    (s, [Event.recordingFailed env.errorString])
  else
    (s, [])

/-- The lambda connected to `QProcess::readyRead`: forward the decoded
output verbatim. -/
def PerfRecord.onReadyRead (s : PerfRecord) (output : String) :
    PerfRecord × List Event :=
  (s, [Event.recordingOutput output])

/-- `PerfRecord::startRecording`.  Mirrors the C++ statement order: kill
and replace any previous process handle first, then validate the output
folder (three checks, each an early return), then store the output path,
set the working directory, assemble either the elevated or the direct
command line, emit `recordingStarted` and start the process. -/
def PerfRecord.startRecording (env : Env) (s : PerfRecord)
    (perfOptions : List String) (outputPath : String) (recordAsSudo : Bool)
    (recordOptions : List String) (workingDirectory : String) :
    PerfRecord × List Event :=
  let killEvents : List Event :=
    if s.m_perfRecordProcess.isSome then [Event.killPrevious] else []
  let proc : QProcessModel := { arguments := [], workingDirectory := "" }
  let s := { s with m_perfRecordProcess := some proc }
  let folderPath := env.dirOf outputPath
  let folderInfo := env.fileInfo folderPath
  if !folderInfo.fexists then
    (s, killEvents ++
      [Event.recordingFailed ("Folder '" ++ folderPath ++ "' does not exist.")])
  else if !folderInfo.isDir then
    (s, killEvents ++
      [Event.recordingFailed ("'" ++ folderPath ++ "' is not a folder.")])
  else if !folderInfo.isWritable then
    (s, killEvents ++
      [Event.recordingFailed ("Folder '" ++ folderPath ++ "' is not writable.")])
  else
    let s := { s with m_outputPath := outputPath }
    let perfBinary := "perf"
    let proc :=
      if workingDirectory ≠ "" then
        { proc with workingDirectory := workingDirectory }
      else proc
    if recordAsSudo then
      let sudoBinary := PerfRecord.sudoUtil env
      let options := sudoOptions env sudoBinary
        ++ ["--", perfBinary, "record", "-o", s.m_outputPath]
        ++ perfOptions
        ++ ["--", "runuser", "-u", PerfRecord.currentUsername env, "--"]
        ++ recordOptions
      ({ s with m_perfRecordProcess := some { proc with arguments := options } },
       killEvents ++
        [Event.recordingStarted sudoBinary options, Event.spawn sudoBinary options])
    else
      let perfCommandArgs := ["record", "-o", s.m_outputPath]
        ++ perfOptions ++ recordOptions
      ({ s with
          m_perfRecordProcess := some { proc with arguments := perfCommandArgs } },
       killEvents ++
        [Event.recordingStarted perfBinary perfCommandArgs,
         Event.spawn perfBinary perfCommandArgs])

/-- The `record` overload taking a list of process ids: fail on an empty
set, otherwise delegate to `startRecording` with `--pid <joined ids>`
(working directory defaulted to empty). -/
def PerfRecord.record_pids (env : Env) (s : PerfRecord)
    (perfOptions : List String) (outputPath : String) (recordAsSudo : Bool)
    (pids : List String) : PerfRecord × List Event :=
  if pids.isEmpty then
    (s, [Event.recordingFailed "Process does not exist."])
  else
    let recordOptions := ["--pid", String.intercalate "," pids]
    PerfRecord.startRecording env s perfOptions outputPath recordAsSudo
      recordOptions ""

/-- The executable-path resolution of the `record` overload (perfrecord.cpp
lines 198-202): the `QFileInfo` is built on the literal path and, when that
does not exist, re-targeted at `QStandardPaths::findExecutable(exePath)`. -/
def resolvedExePath (env : Env) (exePath : String) : String :=
  if (env.fileInfo exePath).fexists then exePath
  else env.findExecutable exePath

/-- The `record` overload taking an executable path: resolve the literal
path first and, when it does not exist, re-target the file info at
`findExecutable(exePath)`; then require existence, regular-file-ness and
executability (each an early failure), and delegate to `startRecording`
with the absolute file path prepended to the target's arguments. -/
def PerfRecord.record_exe (env : Env) (s : PerfRecord)
    (perfOptions : List String) (outputPath : String) (recordAsSudo : Bool)
    (exePath : String) (exeOptions : List String) (workingDirectory : String) :
    PerfRecord × List Event :=
  let exeFilePath := resolvedExePath env exePath
  let exeFileInfo := env.fileInfo exeFilePath
  if !exeFileInfo.fexists then
    (s, [Event.recordingFailed ("File '" ++ exePath ++ "' does not exist.")])
  else if !exeFileInfo.isFile then
    (s, [Event.recordingFailed ("'" ++ exePath ++ "' is not a file.")])
  else if !exeFileInfo.isExecutable then
    (s, [Event.recordingFailed ("File '" ++ exePath ++ "' is not executable.")])
  else
    let recordOptions := env.absoluteFilePath exeFilePath :: exeOptions
    PerfRecord.startRecording env s perfOptions outputPath recordAsSudo
      recordOptions workingDirectory

/-- `PerfRecord::perfCommand`: `"perf " + arguments().join(' ')` when a
process object exists, empty string otherwise. -/
def PerfRecord.perfCommand (s : PerfRecord) : String :=
  match s.m_perfRecordProcess with
  | some proc => "perf " ++ String.intercalate " " proc.arguments
  | none => ""

/-- `PerfRecord::stopRecording`: when a process object exists, set
`m_userTerminated` and call `terminate()` (graceful); otherwise do
nothing. -/
def PerfRecord.stopRecording (s : PerfRecord) : PerfRecord × List Event :=
  if s.m_perfRecordProcess.isSome then
    ({ s with m_userTerminated := true }, [Event.terminateChild])
  else
    (s, [])

/-- The asynchronous events the OS can deliver to the connected lambdas. -/
inductive OsEvent where
  | finished (exitCode : Int)
  | errorOccurred
  | readyRead (output : String)
deriving Repr, DecidableEq

/-- Dispatch one OS event to the corresponding connected lambda. -/
def PerfRecord.step (env : Env) (s : PerfRecord) : OsEvent → PerfRecord × List Event
  | OsEvent.finished exitCode => PerfRecord.onFinished env s exitCode
  | OsEvent.errorOccurred => PerfRecord.onErrorOccurred env s
  | OsEvent.readyRead output => PerfRecord.onReadyRead s output

/-- Run a session: fold a list of OS events through the handlers,
concatenating the emitted events. -/
def PerfRecord.run (env : Env) (s : PerfRecord) :
    List OsEvent → PerfRecord × List Event
  | [] => (s, [])
  | e :: rest =>
    let r1 := PerfRecord.step env s e
    let r2 := PerfRecord.run env r1.1 rest
    (r2.1, r1.2 ++ r2.2)

/-- The terminal notifications of a session: `recordingFinished` and
`recordingFailed`. -/
def Event.isTerminal : Event → Bool
  | Event.recordingFinished _ => true
  | Event.recordingFailed _ => true
  | _ => false

/-- Subprocess spawns (`QProcess::start`) among a list of events. -/
def Event.isSpawn : Event → Bool
  | Event.spawn _ _ => true
  | _ => false

/-- The messages of the failure notifications among a list of events. -/
def failedMessages (evs : List Event) : List String :=
  evs.filterMap fun e =>
    match e with
    | Event.recordingFailed m => some m
    | _ => none

/-- File metadata of an existing, readable, writable, executable regular
file or directory, used by the concrete test environments. -/
def goodInfo : FileInfo :=
  { fexists := true, isDir := true, isWritable := true, isFile := true,
    isExecutable := true, isReadable := true, size := 100 }

/-- File metadata of a missing path. -/
def badInfo : FileInfo :=
  { fexists := false, isDir := false, isWritable := false, isFile := false,
    isExecutable := false, isReadable := false, size := 0 }

/-- Concrete environment where every path exists and is usable and all
helpers resolve. -/
def envAllGood : Env :=
  { fileInfo := fun _ => goodInfo
    fileInfoAfterChown := fun _ => goodInfo
    dirOf := fun _ => "/tmp"
    findExecutable := fun cmd => "/usr/bin/" ++ cmd
    absoluteFilePath := fun p => p
    loginName := "alice"
    groupName := "users"
    activeWindow := 42
    errorString := "crashed" }

/-- Concrete environment where no path exists and no helper resolves. -/
def envNoFile : Env :=
  { fileInfo := fun _ => badInfo
    fileInfoAfterChown := fun _ => badInfo
    dirOf := fun _ => "/tmp"
    findExecutable := fun _ => ""
    absoluteFilePath := fun p => p
    loginName := "alice"
    groupName := "users"
    activeWindow := 0
    errorString := "crashed" }

/-- Concrete state with a running recording of `/tmp/perf.data`. -/
def runningState : PerfRecord :=
  { m_perfRecordProcess :=
      some { arguments := ["record", "-o", "/tmp/perf.data"], workingDirectory := "" }
    m_outputPath := "/tmp/perf.data"
    m_userTerminated := false }

example :
    (PerfRecord.record_pids envAllGood PerfRecord.init [] "/tmp/perf.data" false []).2
      = [Event.recordingFailed "Process does not exist."] := by decide

example :
    (PerfRecord.startRecording envAllGood PerfRecord.init ["-c", "1000"]
        "/tmp/perf.data" false ["ls", "-l"] "").2
      = [Event.recordingStarted "perf"
           ["record", "-o", "/tmp/perf.data", "-c", "1000", "ls", "-l"],
         Event.spawn "perf"
           ["record", "-o", "/tmp/perf.data", "-c", "1000", "ls", "-l"]] := by
  decide

example :
    (PerfRecord.startRecording envAllGood PerfRecord.init []
        "/tmp/perf.data" true ["ls"] "").2
      = [Event.recordingStarted "/usr/bin/kdesu"
           ["-u", "root", "-t", "--attach", "42", "--", "perf", "record", "-o",
            "/tmp/perf.data", "--", "runuser", "-u", "alice", "--", "ls"],
         Event.spawn "/usr/bin/kdesu"
           ["-u", "root", "-t", "--attach", "42", "--", "perf", "record", "-o",
            "/tmp/perf.data", "--", "runuser", "-u", "alice", "--", "ls"]] := by
  decide

example :
    (PerfRecord.run envNoFile runningState
        [OsEvent.errorOccurred, OsEvent.finished 6]).2
      = [Event.recordingFailed "crashed",
         Event.recordingFailed "Failed to record perf data, error code 6."] := by
  decide

theorem ensureFileReadable_snd_shape (env : Env) (p : String) :
    (PerfRecord.ensureFileReadable env p).2 = []
    ∨ ∃ b args, (PerfRecord.ensureFileReadable env p).2 = [Event.execSync b args] := by
  unfold PerfRecord.ensureFileReadable
  cases h1 : (env.fileInfo p).isReadable
  · by_cases h2 : PerfRecord.sudoUtil env = "" ∨ PerfRecord.currentUsername env = ""
    · simp [h1, h2]
    · simp only [h1, h2, Bool.not_false, if_true, if_false, ite_false]
      exact Or.inr ⟨_, _, rfl⟩
  · simp [h1]

theorem ensureFileReadable_no_terminal (env : Env) (p : String) :
    (PerfRecord.ensureFileReadable env p).2.filter Event.isTerminal = [] := by
  rcases ensureFileReadable_snd_shape env p with h | ⟨b, args, h⟩ <;>
    simp [h, Event.isTerminal]

theorem ensureFileReadable_no_finished (env : Env) (p q : String) :
    Event.recordingFinished q ∉ (PerfRecord.ensureFileReadable env p).2 := by
  rcases ensureFileReadable_snd_shape env p with h | ⟨b, args, h⟩ <;> simp [h]

theorem exitSuccessB_iff (env : Env) (s : PerfRecord) (exitCode : Int) :
    exitSuccessB env s exitCode = true ↔
      ((exitCode = 0 ∨ (exitCode = SIGTERM ∧ s.m_userTerminated = true)
          ∨ 0 < (env.fileInfo s.m_outputPath).size)
        ∧ (env.fileInfo s.m_outputPath).fexists = true) := by
  unfold exitSuccessB
  cases hu : s.m_userTerminated <;>
    simp [hu, Bool.or_eq_true, Bool.and_eq_true, beq_iff_eq,
      decide_eq_true_iff, or_assoc]

/-- C1: when the recording subprocess terminates, the exit is classified
as success iff (exit code zero, or exit code = SIGTERM with the
user-terminated flag set, or nonzero output-file size) and the output
file exists; a finished notification is emitted exactly when additionally
the file can be made readable; when it cannot, a failure notification is
emitted instead; and on classification failure the single failure
notification embeds the raw exit code. -/
theorem C1_exit_classification (env : Env) (s : PerfRecord) (exitCode : Int) :
    (Event.recordingFinished s.m_outputPath ∈ (PerfRecord.onFinished env s exitCode).2
      ↔ ((exitCode = 0 ∨ (exitCode = SIGTERM ∧ s.m_userTerminated = true)
            ∨ 0 < (env.fileInfo s.m_outputPath).size)
          ∧ (env.fileInfo s.m_outputPath).fexists = true
          ∧ (PerfRecord.ensureFileReadable env s.m_outputPath).1 = true))
    ∧ (exitSuccessB env s exitCode = true →
        (PerfRecord.ensureFileReadable env s.m_outputPath).1 = false →
        (PerfRecord.onFinished env s exitCode).2.filter Event.isTerminal =
          [Event.recordingFailed "Unable to make data file readable."])
    ∧ (exitSuccessB env s exitCode = false →
        (PerfRecord.onFinished env s exitCode).2 =
          [Event.recordingFailed ("Failed to record perf data, error code "
            ++ toString exitCode ++ ".")]
          ∧ ∃ pre post : String,
            (PerfRecord.onFinished env s exitCode).2 =
              [Event.recordingFailed (pre ++ toString exitCode ++ post)]) := by
  refine ⟨?_, ?_, ?_⟩
  · rw [← and_assoc, ← exitSuccessB_iff env s exitCode]
    unfold PerfRecord.onFinished
    cases hs : exitSuccessB env s exitCode
    · simp [hs]
    · cases hr : (PerfRecord.ensureFileReadable env s.m_outputPath).1
      · simp [hs, hr, ensureFileReadable_no_finished]
      · simp [hs, hr]
  · intro hs hr
    unfold PerfRecord.onFinished
    simp [hs, hr, List.filter_append, ensureFileReadable_no_terminal,
      Event.isTerminal]
  · intro hs
    refine ⟨?_, "Failed to record perf data, error code ", ".", ?_⟩ <;>
      simp [PerfRecord.onFinished, hs]

/-- C6: an OS-level process error produces a failure notification carrying
the OS error string iff the user-terminated flag is unset; and after
`stopRecording` on an active subprocess, a subsequent error event followed
by the exit event yields exactly the events of the exit event alone (the
error contributes no notification). -/
theorem C6_error_suppression (env : Env) (s : PerfRecord)
    (h : s.m_perfRecordProcess.isSome = true) :
    ((PerfRecord.onErrorOccurred env s).2 =
      if s.m_userTerminated then [] else [Event.recordingFailed env.errorString])
    ∧ (∀ exitCode : Int,
        (PerfRecord.run env (PerfRecord.stopRecording s).1
          [OsEvent.errorOccurred, OsEvent.finished exitCode]).2 =
        (PerfRecord.run env (PerfRecord.stopRecording s).1
          [OsEvent.finished exitCode]).2) := by
  constructor
  · unfold PerfRecord.onErrorOccurred
    cases hu : s.m_userTerminated <;> simp [hu]
  · intro exitCode
    simp [PerfRecord.run, PerfRecord.step, PerfRecord.stopRecording, h,
      PerfRecord.onErrorOccurred]

/-- C6 witness: concrete instance with an active subprocess. -/
theorem C6_error_suppression_witness :
    runningState.m_perfRecordProcess.isSome = true
    ∧ (((PerfRecord.onErrorOccurred envNoFile runningState).2 =
        if runningState.m_userTerminated then []
        else [Event.recordingFailed envNoFile.errorString])
      ∧ (∀ exitCode : Int,
          (PerfRecord.run envNoFile (PerfRecord.stopRecording runningState).1
            [OsEvent.errorOccurred, OsEvent.finished exitCode]).2 =
          (PerfRecord.run envNoFile (PerfRecord.stopRecording runningState).1
            [OsEvent.finished exitCode]).2)) :=
  ⟨by decide, C6_error_suppression envNoFile runningState (by decide)⟩

/-- C7: `stopRecording` with an active subprocess sets the user-terminated
flag and sends the graceful terminate signal (not the hard kill), changing
nothing else; with no active subprocess it is a no-op that changes no
state and emits nothing. -/
theorem C7_stopRecording_spec (s : PerfRecord) :
    (s.m_perfRecordProcess.isSome = true →
      (PerfRecord.stopRecording s).1.m_userTerminated = true
      ∧ (PerfRecord.stopRecording s).1.m_perfRecordProcess = s.m_perfRecordProcess
      ∧ (PerfRecord.stopRecording s).1.m_outputPath = s.m_outputPath
      ∧ (PerfRecord.stopRecording s).2 = [Event.terminateChild]
      ∧ Event.killPrevious ∉ (PerfRecord.stopRecording s).2)
    ∧ (s.m_perfRecordProcess.isSome = false →
      PerfRecord.stopRecording s = (s, [])) := by
  unfold PerfRecord.stopRecording
  constructor
  · intro h; simp [h]
  · intro h; simp [h]

/-- C7 witness: both branches exercised on concrete states. -/
theorem C7_stopRecording_witness :
    (runningState.m_perfRecordProcess.isSome = true
      ∧ (PerfRecord.stopRecording runningState).1.m_userTerminated = true
      ∧ (PerfRecord.stopRecording runningState).2 = [Event.terminateChild])
    ∧ (PerfRecord.init.m_perfRecordProcess.isSome = false
      ∧ PerfRecord.stopRecording PerfRecord.init = (PerfRecord.init, [])) :=
  ⟨⟨by decide, ((C7_stopRecording_spec runningState).1 (by decide)).1,
      ((C7_stopRecording_spec runningState).1 (by decide)).2.2.2.1⟩,
   ⟨by decide, (C7_stopRecording_spec PerfRecord.init).2 (by decide)⟩⟩

/-- C8: `ensureFileReadable` returns true and runs no helper when the file
is already readable; returns false and runs no helper when unreadable and
either the sudo helper or the username is missing; otherwise synchronously
runs the helper to chown the file to `<user>:<primary group>` and returns
the freshly re-read readability. -/
theorem C8_ensureFileReadable_spec (env : Env) (filePath : String) :
    ((env.fileInfo filePath).isReadable = true →
      PerfRecord.ensureFileReadable env filePath = (true, []))
    ∧ ((env.fileInfo filePath).isReadable = false →
        (PerfRecord.sudoUtil env = "" ∨ PerfRecord.currentUsername env = "") →
      PerfRecord.ensureFileReadable env filePath = (false, []))
    ∧ ((env.fileInfo filePath).isReadable = false →
        PerfRecord.sudoUtil env ≠ "" → PerfRecord.currentUsername env ≠ "" →
      PerfRecord.ensureFileReadable env filePath =
        ((env.fileInfoAfterChown filePath).isReadable,
         [Event.execSync (PerfRecord.sudoUtil env)
           (sudoOptions env (PerfRecord.sudoUtil env) ++
            ["--", "chown",
             PerfRecord.currentUsername env ++ ":" ++ env.groupName,
             filePath])])) := by
  refine ⟨?_, ?_, ?_⟩ <;> unfold PerfRecord.ensureFileReadable
  · intro h; simp [h]
  · intro h hmiss; simp [h, hmiss]
  · intro h hs hu
    have : ¬ (PerfRecord.sudoUtil env = "" ∨ PerfRecord.currentUsername env = "") := by
      simp [hs, hu]
    simp [h, this]

/-- C8 witness: already-readable file returns true with no helper run;
unreadable file with no resolvable helper returns false. -/
theorem C8_ensureFileReadable_witness :
    ((envAllGood.fileInfo "/tmp/perf.data").isReadable = true
      ∧ PerfRecord.ensureFileReadable envAllGood "/tmp/perf.data" = (true, []))
    ∧ ((envNoFile.fileInfo "/tmp/perf.data").isReadable = false
      ∧ PerfRecord.ensureFileReadable envNoFile "/tmp/perf.data" = (false, [])) :=
  ⟨⟨by decide, (C8_ensureFileReadable_spec envAllGood "/tmp/perf.data").1 (by decide)⟩,
   ⟨by decide, (C8_ensureFileReadable_spec envNoFile "/tmp/perf.data").2.1 (by decide)
      (Or.inl (by decide))⟩⟩

/-- C2: every start request with an invalid target (empty pid set; an
executable path that, after trying the literal path and then the search
path, does not exist, is not a regular file, or is not executable) or an
invalid output directory (missing, not a directory, not writable) emits
exactly one failure notification carrying the corresponding message and
spawns no subprocess. -/
theorem C2_invalid_requests (env : Env) (s : PerfRecord)
    (perfOptions : List String) (outputPath : String) (recordAsSudo : Bool)
    (pids : List String) (exePath : String) (exeOptions : List String)
    (recordOptions : List String) (workingDirectory : String) :
    (pids = [] →
      PerfRecord.record_pids env s perfOptions outputPath recordAsSudo pids =
        (s, [Event.recordingFailed "Process does not exist."]))
    ∧ ((env.fileInfo (resolvedExePath env exePath)).fexists = false →
      PerfRecord.record_exe env s perfOptions outputPath recordAsSudo exePath
          exeOptions workingDirectory =
        (s, [Event.recordingFailed ("File '" ++ exePath ++ "' does not exist.")]))
    ∧ ((env.fileInfo (resolvedExePath env exePath)).fexists = true →
       (env.fileInfo (resolvedExePath env exePath)).isFile = false →
      PerfRecord.record_exe env s perfOptions outputPath recordAsSudo exePath
          exeOptions workingDirectory =
        (s, [Event.recordingFailed ("'" ++ exePath ++ "' is not a file.")]))
    ∧ ((env.fileInfo (resolvedExePath env exePath)).fexists = true →
       (env.fileInfo (resolvedExePath env exePath)).isFile = true →
       (env.fileInfo (resolvedExePath env exePath)).isExecutable = false →
      PerfRecord.record_exe env s perfOptions outputPath recordAsSudo exePath
          exeOptions workingDirectory =
        (s, [Event.recordingFailed ("File '" ++ exePath ++ "' is not executable.")]))
    ∧ ((env.fileInfo (env.dirOf outputPath)).fexists = false →
      failedMessages (PerfRecord.startRecording env s perfOptions outputPath
          recordAsSudo recordOptions workingDirectory).2 =
        ["Folder '" ++ env.dirOf outputPath ++ "' does not exist."]
      ∧ (PerfRecord.startRecording env s perfOptions outputPath recordAsSudo
          recordOptions workingDirectory).2.filter Event.isSpawn = [])
    ∧ ((env.fileInfo (env.dirOf outputPath)).fexists = true →
       (env.fileInfo (env.dirOf outputPath)).isDir = false →
      failedMessages (PerfRecord.startRecording env s perfOptions outputPath
          recordAsSudo recordOptions workingDirectory).2 =
        ["'" ++ env.dirOf outputPath ++ "' is not a folder."]
      ∧ (PerfRecord.startRecording env s perfOptions outputPath recordAsSudo
          recordOptions workingDirectory).2.filter Event.isSpawn = [])
    ∧ ((env.fileInfo (env.dirOf outputPath)).fexists = true →
       (env.fileInfo (env.dirOf outputPath)).isDir = true →
       (env.fileInfo (env.dirOf outputPath)).isWritable = false →
      failedMessages (PerfRecord.startRecording env s perfOptions outputPath
          recordAsSudo recordOptions workingDirectory).2 =
        ["Folder '" ++ env.dirOf outputPath ++ "' is not writable."]
      ∧ (PerfRecord.startRecording env s perfOptions outputPath recordAsSudo
          recordOptions workingDirectory).2.filter Event.isSpawn = []) := by
  refine ⟨?_, ?_, ?_, ?_, ?_, ?_, ?_⟩
  · intro h
    simp [PerfRecord.record_pids, h]
  · intro h
    simp [PerfRecord.record_exe, h]
  · intro h1 h2
    simp [PerfRecord.record_exe, h1, h2]
  · intro h1 h2 h3
    simp [PerfRecord.record_exe, h1, h2, h3]
  · intro h1
    unfold PerfRecord.startRecording
    cases hp : s.m_perfRecordProcess.isSome <;>
      simp [h1, hp, failedMessages, Event.isSpawn]
  · intro h1 h2
    unfold PerfRecord.startRecording
    cases hp : s.m_perfRecordProcess.isSome <;>
      simp [h1, h2, hp, failedMessages, Event.isSpawn]
  · intro h1 h2 h3
    unfold PerfRecord.startRecording
    cases hp : s.m_perfRecordProcess.isSome <;>
      simp [h1, h2, h3, hp, failedMessages, Event.isSpawn]

theorem sudoOptions_eq (env : Env) (b : String) :
    sudoOptions env b = ["-u", "root"] ++
      (if strEndsWith b "/kdesu" then ["-t", "--attach", toString env.activeWindow]
       else []) := by
  unfold sudoOptions
  split <;> simp

/-- C3 counterexample: on a supervisor with a running subprocess, a start
request whose output folder fails validation still kills the previous
handle and replaces it, contradicting the claim that a validation failure
leaves the previous subprocess handle untouched. -/
theorem C3_counterexample :
    Event.killPrevious ∈ (PerfRecord.startRecording envNoFile runningState []
        "/tmp/perf.data" false [] "").2
    ∧ Event.recordingFailed "Folder '/tmp' does not exist."
        ∈ (PerfRecord.startRecording envNoFile runningState [] "/tmp/perf.data"
            false [] "").2
    ∧ (PerfRecord.startRecording envNoFile runningState [] "/tmp/perf.data"
        false [] "").1.m_perfRecordProcess ≠ runningState.m_perfRecordProcess := by
  decide

/-- C3 amended: the previously running subprocess handle is forcibly
killed and discarded at the start of every `startRecording` call, before
output-directory validation, so a start request that fails that
validation still kills and replaces the handle (with a fresh unstarted
process); only the target-validation failures inside `record` (such as an
empty pid set) leave the previous handle untouched. -/
theorem C3_amended_kill_on_entry (env : Env) (s : PerfRecord)
    (perfOptions : List String) (outputPath : String) (recordAsSudo : Bool)
    (recordOptions : List String) (workingDirectory : String) :
    (Event.killPrevious ∈ (PerfRecord.startRecording env s perfOptions outputPath
        recordAsSudo recordOptions workingDirectory).2
      ↔ s.m_perfRecordProcess.isSome = true)
    ∧ (PerfRecord.startRecording env s perfOptions outputPath recordAsSudo
        recordOptions workingDirectory).1.m_perfRecordProcess.isSome = true
    ∧ ((env.fileInfo (env.dirOf outputPath)).fexists = false →
        (PerfRecord.startRecording env s perfOptions outputPath recordAsSudo
          recordOptions workingDirectory).1.m_perfRecordProcess =
            some { arguments := [], workingDirectory := "" })
    ∧ (PerfRecord.record_pids env s perfOptions outputPath recordAsSudo [] =
        (s, [Event.recordingFailed "Process does not exist."])) := by
  refine ⟨?_, ?_, ?_, ?_⟩
  · unfold PerfRecord.startRecording
    cases hp : s.m_perfRecordProcess.isSome <;>
      cases he : (env.fileInfo (env.dirOf outputPath)).fexists <;>
      cases hd : (env.fileInfo (env.dirOf outputPath)).isDir <;>
      cases hw : (env.fileInfo (env.dirOf outputPath)).isWritable <;>
      cases hsu : recordAsSudo <;>
        simp [hp, he, hd, hw, hsu]
  · unfold PerfRecord.startRecording
    cases he : (env.fileInfo (env.dirOf outputPath)).fexists <;>
      cases hd : (env.fileInfo (env.dirOf outputPath)).isDir <;>
      cases hw : (env.fileInfo (env.dirOf outputPath)).isWritable <;>
      cases hsu : recordAsSudo <;>
        simp [he, hd, hw, hsu]
  · intro h
    unfold PerfRecord.startRecording
    cases hp : s.m_perfRecordProcess.isSome <;> simp [h, hp]
  · simp [PerfRecord.record_pids]

/-- C4: for every elevated start request that passes output-folder
validation, the assembled command line is exactly the resolved sudo
helper, its own flags (`-u root`, plus `-t --attach <window>` exactly
when the helper path ends in `/kdesu`), a `--` separator, `perf record -o
<output>` with the perf options, a `--` separator, `runuser -u
<invoking user> --`, and finally the target command; the started
notification and the spawn carry this binary and argument list. -/
theorem C4_elevated_command (env : Env) (s : PerfRecord)
    (perfOptions recordOptions : List String)
    (outputPath workingDirectory : String)
    (h1 : (env.fileInfo (env.dirOf outputPath)).fexists = true)
    (h2 : (env.fileInfo (env.dirOf outputPath)).isDir = true)
    (h3 : (env.fileInfo (env.dirOf outputPath)).isWritable = true) :
    (PerfRecord.startRecording env s perfOptions outputPath true recordOptions
        workingDirectory).2 =
      (if s.m_perfRecordProcess.isSome then [Event.killPrevious] else [])
      ++ [Event.recordingStarted (PerfRecord.sudoUtil env)
            (["-u", "root"]
             ++ (if strEndsWith (PerfRecord.sudoUtil env) "/kdesu" then
                   ["-t", "--attach", toString env.activeWindow] else [])
             ++ ["--", "perf", "record", "-o", outputPath]
             ++ perfOptions
             ++ ["--", "runuser", "-u", env.loginName, "--"]
             ++ recordOptions),
          Event.spawn (PerfRecord.sudoUtil env)
            (["-u", "root"]
             ++ (if strEndsWith (PerfRecord.sudoUtil env) "/kdesu" then
                   ["-t", "--attach", toString env.activeWindow] else [])
             ++ ["--", "perf", "record", "-o", outputPath]
             ++ perfOptions
             ++ ["--", "runuser", "-u", env.loginName, "--"]
             ++ recordOptions)] := by
  unfold PerfRecord.startRecording
  simp [h1, h2, h3, sudoOptions_eq, PerfRecord.currentUsername]

/-- C4 witness: concrete elevated request where the helper resolves to
`/usr/bin/kdesu`, so the window-attachment flags are present. -/
theorem C4_elevated_command_witness :
    ((envAllGood.fileInfo (envAllGood.dirOf "/tmp/out.data")).fexists = true
     ∧ (envAllGood.fileInfo (envAllGood.dirOf "/tmp/out.data")).isDir = true
     ∧ (envAllGood.fileInfo (envAllGood.dirOf "/tmp/out.data")).isWritable = true)
    ∧ (PerfRecord.startRecording envAllGood PerfRecord.init ["-c", "1000"]
        "/tmp/out.data" true ["ls", "-l"] "").2 =
      (if PerfRecord.init.m_perfRecordProcess.isSome then [Event.killPrevious] else [])
      ++ [Event.recordingStarted (PerfRecord.sudoUtil envAllGood)
            (["-u", "root"]
             ++ (if strEndsWith (PerfRecord.sudoUtil envAllGood) "/kdesu" then
                   ["-t", "--attach", toString envAllGood.activeWindow] else [])
             ++ ["--", "perf", "record", "-o", "/tmp/out.data"]
             ++ ["-c", "1000"]
             ++ ["--", "runuser", "-u", envAllGood.loginName, "--"]
             ++ ["ls", "-l"]),
          Event.spawn (PerfRecord.sudoUtil envAllGood)
            (["-u", "root"]
             ++ (if strEndsWith (PerfRecord.sudoUtil envAllGood) "/kdesu" then
                   ["-t", "--attach", toString envAllGood.activeWindow] else [])
             ++ ["--", "perf", "record", "-o", "/tmp/out.data"]
             ++ ["-c", "1000"]
             ++ ["--", "runuser", "-u", envAllGood.loginName, "--"]
             ++ ["ls", "-l"])] :=
  ⟨⟨by decide, by decide, by decide⟩,
   C4_elevated_command envAllGood PerfRecord.init ["-c", "1000"] ["ls", "-l"]
     "/tmp/out.data" "" (by decide) (by decide) (by decide)⟩

theorem onFinished_one_terminal (env : Env) (s : PerfRecord) (exitCode : Int) :
    ((PerfRecord.onFinished env s exitCode).2.filter Event.isTerminal).length = 1 := by
  unfold PerfRecord.onFinished
  cases hs : exitSuccessB env s exitCode
  · simp [Event.isTerminal]
  · cases hr : (PerfRecord.ensureFileReadable env s.m_outputPath).1 <;>
      simp [hr, List.filter_append, ensureFileReadable_no_terminal, Event.isTerminal]

/-- C5 counterexample: in a session where the OS delivers a process error
(with the user-terminated flag unset) and then the exit event, two
terminal notifications are emitted, not exactly one. -/
theorem C5_counterexample :
    ((PerfRecord.run envNoFile runningState
        [OsEvent.errorOccurred, OsEvent.finished 6]).2.filter Event.isTerminal).length
      = 2 := by
  decide

/-- C5 amended: output notifications are never terminal and may interleave
arbitrarily, and each single handler invocation emits a bounded number of
terminal notifications: the finished handler exactly one, the error
handler exactly one iff the user-terminated flag is unset; consequently a
session in which the OS delivers both a process error (flag unset) and
the termination event produces two terminal notifications, not one. -/
theorem C5_amended_terminal_counts (env : Env) (s : PerfRecord)
    (exitCode : Int) (output : String) :
    (((PerfRecord.onFinished env s exitCode).2.filter Event.isTerminal).length = 1)
    ∧ (((PerfRecord.onErrorOccurred env s).2.filter Event.isTerminal).length =
        if s.m_userTerminated then 0 else 1)
    ∧ ((PerfRecord.onReadyRead s output).2 = [Event.recordingOutput output])
    ∧ (((PerfRecord.onReadyRead s output).2.filter Event.isTerminal).length = 0)
    ∧ (s.m_userTerminated = false →
        ((PerfRecord.run env s [OsEvent.errorOccurred, OsEvent.finished exitCode]).2.filter
            Event.isTerminal).length = 2) := by
  refine ⟨onFinished_one_terminal env s exitCode, ?_, rfl, ?_, ?_⟩
  · unfold PerfRecord.onErrorOccurred
    cases hu : s.m_userTerminated <;> simp [hu, Event.isTerminal]
  · simp [PerfRecord.onReadyRead, Event.isTerminal]
  · intro hu
    simp [PerfRecord.run, PerfRecord.step, PerfRecord.onErrorOccurred, hu,
      List.filter_append, Event.isTerminal, onFinished_one_terminal]

theorem perf_prefix_ne_empty (t : String) : "perf " ++ t ≠ "" := by
  intro h
  have h2 := congrArg String.length h
  rw [String.length_append] at h2
  have h5 : ("perf " : String).length = 5 := rfl
  have h0 : ("" : String).length = 0 := rfl
  omega

/-- C9 counterexample: after a start request on a fresh supervisor that
failed output-folder validation, no recording command has been configured
(nothing was spawned), yet `perfCommand` returns the nonempty string
"perf " rather than the empty string. -/
theorem C9_counterexample :
    (PerfRecord.startRecording envNoFile PerfRecord.init [] "/tmp/perf.data"
        false [] "").2.filter Event.isSpawn = []
    ∧ PerfRecord.perfCommand (PerfRecord.startRecording envNoFile PerfRecord.init
        [] "/tmp/perf.data" false [] "").1 = "perf "
    ∧ PerfRecord.perfCommand (PerfRecord.startRecording envNoFile PerfRecord.init
        [] "/tmp/perf.data" false [] "").1 ≠ "" := by
  decide

/-- C9 amended: `perfCommand` is a pure accessor of the stored process
object; it returns the empty string iff no start request has ever reached
`startRecording` (the process member is still null); after a
`startRecording` that spawned a process with argument list `args` it
returns "perf " followed by the space-joined `args`; but after a
`startRecording` that failed output-folder validation it returns the
nonempty "perf " even though no command was configured. -/
theorem C9_amended_perfCommand (env : Env) (s : PerfRecord)
    (perfOptions : List String) (outputPath : String) (recordAsSudo : Bool)
    (recordOptions : List String) (workingDirectory : String) :
    (PerfRecord.perfCommand s = "" ↔ s.m_perfRecordProcess = none)
    ∧ (∀ bin args,
        Event.spawn bin args ∈ (PerfRecord.startRecording env s perfOptions
            outputPath recordAsSudo recordOptions workingDirectory).2 →
        PerfRecord.perfCommand (PerfRecord.startRecording env s perfOptions
            outputPath recordAsSudo recordOptions workingDirectory).1 =
          "perf " ++ String.intercalate " " args)
    ∧ ((env.fileInfo (env.dirOf outputPath)).fexists = false →
        PerfRecord.perfCommand (PerfRecord.startRecording env s perfOptions
            outputPath recordAsSudo recordOptions workingDirectory).1 = "perf ") := by
  refine ⟨?_, ?_, ?_⟩
  · cases hproc : s.m_perfRecordProcess with
    | none => simp [PerfRecord.perfCommand, hproc]
    | some p => simp [PerfRecord.perfCommand, hproc, perf_prefix_ne_empty]
  · intro bin args hmem
    unfold PerfRecord.startRecording at hmem ⊢
    cases hp : s.m_perfRecordProcess.isSome <;>
      cases he : (env.fileInfo (env.dirOf outputPath)).fexists <;>
      cases hd : (env.fileInfo (env.dirOf outputPath)).isDir <;>
      cases hw : (env.fileInfo (env.dirOf outputPath)).isWritable <;>
      cases hsu : recordAsSudo <;>
        simp [hp, he, hd, hw, hsu] at hmem ⊢ <;>
        simp [PerfRecord.perfCommand, hmem]
  · intro h
    unfold PerfRecord.startRecording
    cases hp : s.m_perfRecordProcess.isSome <;>
      simp [h, hp, PerfRecord.perfCommand, String.intercalate]

theorem startRecording_flag_invariant (env : Env) (s : PerfRecord)
    (perfOptions : List String) (outputPath : String) (recordAsSudo : Bool)
    (recordOptions : List String) (workingDirectory : String) :
    (PerfRecord.startRecording env s perfOptions outputPath recordAsSudo
        recordOptions workingDirectory).1.m_userTerminated = s.m_userTerminated := by
  unfold PerfRecord.startRecording
  cases he : (env.fileInfo (env.dirOf outputPath)).fexists <;>
    cases hd : (env.fileInfo (env.dirOf outputPath)).isDir <;>
    cases hw : (env.fileInfo (env.dirOf outputPath)).isWritable <;>
    cases hsu : recordAsSudo <;>
      simp [he, hd, hw, hsu]

/-- C10: starting a new recording does not reset the user-terminated
flag: after `stopRecording` on an active session whose finished handler
never ran, a subsequent `startRecording` still has the flag set, so the
new session's process errors are suppressed and its SIGTERM exit is
classified as user-initiated success whenever the output file exists. -/
theorem C10_flag_persists (env : Env) (s : PerfRecord)
    (h : s.m_perfRecordProcess.isSome = true)
    (perfOptions : List String) (outputPath : String) (recordAsSudo : Bool)
    (recordOptions : List String) (workingDirectory : String) :
    ((PerfRecord.startRecording env (PerfRecord.stopRecording s).1 perfOptions
        outputPath recordAsSudo recordOptions workingDirectory).1.m_userTerminated
      = true)
    ∧ ((PerfRecord.onErrorOccurred env (PerfRecord.startRecording env
        (PerfRecord.stopRecording s).1 perfOptions outputPath recordAsSudo
        recordOptions workingDirectory).1).2 = [])
    ∧ ((env.fileInfo (PerfRecord.startRecording env (PerfRecord.stopRecording s).1
          perfOptions outputPath recordAsSudo recordOptions
          workingDirectory).1.m_outputPath).fexists = true →
        exitSuccessB env (PerfRecord.startRecording env (PerfRecord.stopRecording s).1
          perfOptions outputPath recordAsSudo recordOptions workingDirectory).1
          SIGTERM = true) := by
  have hstop : (PerfRecord.stopRecording s).1.m_userTerminated = true := by
    unfold PerfRecord.stopRecording
    simp [h]
  have hflag := startRecording_flag_invariant env (PerfRecord.stopRecording s).1
    perfOptions outputPath recordAsSudo recordOptions workingDirectory
  rw [hstop] at hflag
  refine ⟨hflag, ?_, ?_⟩
  · unfold PerfRecord.onErrorOccurred
    simp [hflag]
  · intro hex
    unfold exitSuccessB
    simp [hflag, hex, SIGTERM]

/-- C10 witness: concrete active session stopped and restarted. -/
theorem C10_flag_persists_witness :
    runningState.m_perfRecordProcess.isSome = true
    ∧ (((PerfRecord.startRecording envAllGood (PerfRecord.stopRecording
          runningState).1 [] "/tmp/out.data" false [] "").1.m_userTerminated = true)
      ∧ ((PerfRecord.onErrorOccurred envAllGood (PerfRecord.startRecording envAllGood
          (PerfRecord.stopRecording runningState).1 [] "/tmp/out.data" false []
          "").1).2 = [])
      ∧ ((envAllGood.fileInfo (PerfRecord.startRecording envAllGood
            (PerfRecord.stopRecording runningState).1 [] "/tmp/out.data" false []
            "").1.m_outputPath).fexists = true →
          exitSuccessB envAllGood (PerfRecord.startRecording envAllGood
            (PerfRecord.stopRecording runningState).1 [] "/tmp/out.data" false []
            "").1 SIGTERM = true)) :=
  ⟨by decide,
   C10_flag_persists envAllGood runningState (by decide) [] "/tmp/out.data" false [] ""⟩
